import Mathlib

/-!
Verification of the Kokoro TTS HTTP façade (`src/server.py`).

The server wraps an external speech-synthesis engine.  Its own logic is:
reading configuration from environment variables (module level, lines
15-25), a health endpoint, a voice-listing endpoint, and the `/tts`
endpoint that validates the request, resolves per-field defaults, calls
the engine, concatenates the audio chunks and encodes them as a WAV
stream.  We embed that logic shallowly: the engine and the WAV writer
are external collaborators, modelled respectively as a function
parameter and as a byte-level PCM16 WAV encoder.
-/

namespace KokoroServer

/-- Characters the Python `str.strip()` method (and the `float`/`int`
constructors) treat as whitespace: the Unicode whitespace set. -/
def isPySpace (c : Char) : Bool :=
  let n := c.toNat
  (9 ≤ n && n ≤ 13) || (28 ≤ n && n ≤ 31) || n = 32 || n = 133 || n = 160 ||
    n = 5760 || (8192 ≤ n && n ≤ 8202) || n = 8232 || n = 8233 || n = 8239 ||
    n = 8287 || n = 12288

/-- Python `str.strip()` on a character list: drop whitespace from both ends. -/
def pyStripChars (l : List Char) : List Char :=
  ((l.dropWhile isPySpace).reverse.dropWhile isPySpace).reverse

/-- Python `str.strip()` with no arguments. -/
def pyStrip (s : String) : String :=
  String.mk (pyStripChars s.data)

/-- Consume a maximal run of decimal digits, allowing single underscores
between digits (Python numeric-literal grammar).  Returns the value of the
run, the number of digits consumed, and the remaining characters.  The
first character is required to be a digit by the callers. -/
def digitRun : List Char → Nat → Nat → Nat × Nat × List Char
  | [], acc, n => (acc, n, [])
  | c :: rest, acc, n =>
    if c.isDigit then
      digitRun rest (acc * 10 + (c.toNat - 48)) (n + 1)
    else if c = '_' then
      match rest with
      | d :: rest2 =>
        if d.isDigit then digitRun rest2 (acc * 10 + (d.toNat - 48)) (n + 1)
        else (acc, n, c :: rest)
      | [] => (acc, n, [c])
    else (acc, n, c :: rest)

/-- Parse the mantissa of a Python float literal: `digits`, `digits.`,
`digits.digits` or `.digits`.  Returns the mantissa scaled to an integer,
the number of fractional digits, and the remaining characters. -/
def parseMantissa (l : List Char) : Option (Nat × Nat × List Char) :=
  match l with
  | c :: _ =>
    if c.isDigit then
      let (ip, _, r1) := digitRun l 0 0
      match r1 with
      | '.' :: r2 =>
        match r2 with
        | d :: _ =>
          if d.isDigit then
            let (fp, n2, r3) := digitRun r2 0 0
            some (ip * 10 ^ n2 + fp, n2, r3)
          else some (ip, 0, r2)
        | [] => some (ip, 0, [])
      | _ => some (ip, 0, r1)
    else if c = '.' then
      match l with
      | _ :: r2 =>
        match r2 with
        | d :: _ =>
          if d.isDigit then
            let (fp, n2, r3) := digitRun r2 0 0
            some (fp, n2, r3)
          else none
        | [] => none
      | [] => none
    else none
  | [] => none

/-- Parse the optional exponent suffix of a Python float literal and
require that nothing follows it.  Returns the signed exponent. -/
def parseExponent (l : List Char) : Option Int :=
  match l with
  | [] => some 0
  | c :: r1 =>
    if c = 'e' || c = 'E' then
      let (sgn, r2) : Int × List Char :=
        match r1 with
        | '+' :: r => (1, r)
        | '-' :: r => (-1, r)
        | _ => (1, r1)
      match r2 with
      | d :: _ =>
        if d.isDigit then
          let (ev, _, r3) := digitRun r2 0 0
          if r3 = [] then some (sgn * ev) else none
        else none
      | [] => none
    else none

/-- Model of the Python builtin `float(str)`: strip whitespace, optional
sign, then either a decimal literal (with optional fraction, underscores
and exponent) or one of the non-finite spellings `inf`, `infinity`,
`nan` (case-insensitive).  The non-finite values never influence the
claims below, so their numeric value is modelled as 0; what matters is
that those strings parse rather than fail.  The finite value
`sgn * m * 10^e / 10^nfrac` is assembled with `mkRat` so that it
evaluates by kernel reduction. -/
def pyFloat (s : String) : Option ℚ :=
  let l := pyStripChars s.data
  let (sgn, l2) : ℤ × List Char :=
    match l with
    | '+' :: r => (1, r)
    | '-' :: r => (-1, r)
    | _ => (1, l)
  let low := l2.map Char.toLower
  if low = "inf".data || low = "infinity".data || low = "nan".data then
    some 0
  else
    match parseMantissa l2 with
    | none => none
    | some (m, nfrac, rest) =>
      match parseExponent rest with
      | none => none
      | some e =>
        some (mkRat (sgn * m * 10 ^ e.toNat) (10 ^ nfrac * 10 ^ (-e).toNat))

/-- Model of the Python builtin `int(str)` (base 10): strip whitespace,
optional sign, then a digit run (underscores between digits allowed) and
nothing else. -/
def pyInt (s : String) : Option ℤ :=
  let l := pyStripChars s.data
  let (sgn, l2) : ℤ × List Char :=
    match l with
    | '+' :: r => (1, r)
    | '-' :: r => (-1, r)
    | _ => (1, l)
  match l2 with
  | d :: _ =>
    if d.isDigit then
      let (v, _, rest) := digitRun l2 0 0
      if rest = [] then some (sgn * v) else none
    else none
  | [] => none

/-- The process environment, restricted to the variables `server.py`
reads: `none` models an unset variable. -/
structure Env where
  langCode : Option String
  defaultVoice : Option String
  defaultSpeed : Option String
  splitPattern : Option String
  sampleRate : Option String
  voicesExtra : Option String
deriving DecidableEq

/-- The module-level configuration of `server.py` (lines 15-25). -/
structure Config where
  langCode : String
  defaultVoice : String
  defaultSpeed : ℚ
  splitPattern : String
  sampleRate : ℤ
  voices : List String
deriving DecidableEq

/-- Decidable equality for `Except`, used to evaluate the configuration
loader and the handlers on concrete inputs. -/
instance {ε α : Type} [DecidableEq ε] [DecidableEq α] : DecidableEq (Except ε α) :=
  fun a b =>
    match a, b with
    | Except.ok x, Except.ok y =>
      if h : x = y then Decidable.isTrue (by rw [h])
      else Decidable.isFalse (by simp [h])
    | Except.error x, Except.error y =>
      if h : x = y then Decidable.isTrue (by rw [h])
      else Decidable.isFalse (by simp [h])
    | Except.ok _, Except.error _ => Decidable.isFalse (by simp)
    | Except.error _, Except.ok _ => Decidable.isFalse (by simp)

/-- Lexicographic code-point comparison of character lists: the order
Python's `sorted` uses on strings. -/
def charListLe : List Char → List Char → Bool
  | [], _ => true
  | _ :: _, [] => false
  | a :: as, b :: bs =>
    if a.toNat < b.toNat then true
    else if b.toNat < a.toNat then false
    else charListLe as bs

/-- Python string comparison `a <= b`. -/
def strLe (a b : String) : Bool :=
  charListLe a.data b.data

/-- Python `str.split(",")` on a character list: splitting the empty
string yields one empty field, exactly as in Python. -/
def splitComma : List Char → List (List Char)
  | [] => [[]]
  | c :: rest =>
    if c = ',' then [] :: splitComma rest
    else
      match splitComma rest with
      | h :: t => (c :: h) :: t
      | [] => [[c]]

/-- The `VOICES_EXTRA` list (line 21):
`[v.strip() for v in os.getenv("VOICES_EXTRA", "").split(",") if v.strip()]`. -/
def voicesExtraList (raw : String) : List String :=
  ((splitComma raw.data).map (fun l => String.mk (pyStripChars l))).filter
    (fun v => v ≠ "")

/-- Module-level configuration loading (`server.py` lines 15-25).  The
`float` and `int` conversions run at import time, so a malformed value
raises before the application object exists; we model that as `.error`.
`DEFAULT_VOICES = sorted(set(["af_heart"] + VOICES_EXTRA))` is modelled
as deduplication followed by an insertion sort under the lexicographic
string order `strLe`: on duplicate-free input this is the unique sorted
arrangement, which is what `sorted` on a `set` produces. -/
def loadConfig (env : Env) : Except String Config :=
  match pyFloat (env.defaultSpeed.getD "1.0") with
  | none =>
    Except.error ("could not convert string to float: " ++ env.defaultSpeed.getD "1.0")
  | some dspeed =>
    match pyInt (env.sampleRate.getD "24000") with
    | none =>
      Except.error ("invalid literal for int with base 10: " ++ env.sampleRate.getD "24000")
    | some srate =>
      Except.ok
        { langCode := env.langCode.getD "a"
          defaultVoice := env.defaultVoice.getD "af_heart"
          defaultSpeed := dspeed
          splitPattern := env.splitPattern.getD "\\n+"
          sampleRate := srate
          voices :=
            List.insertionSort (fun a b => strLe a b = true)
              (("af_heart" :: voicesExtraList (env.voicesExtra.getD "")).dedup) }

/-- One audio chunk: the numeric sample buffer the engine yields for one
text segment.  Samples are modelled abstractly as integers (the spec's
distinguishable constant-value buffers); the WAV encoder below stores
them as 16-bit PCM. -/
abbrev Chunk := List ℤ

/-- The external synthesis engine (`pipeline(text, voice=..., speed=...,
split_pattern=...)`).  The `for` loop in `tts` drains the generator of
`(graphemes, phonemes, audio)` triples, keeping the audio buffers in
yield order; an exception during iteration is modelled by `.error` with
the exception message. -/
abbrev Engine := String → String → ℚ → String → Except String (List Chunk)

/-- The `TTSRequest` pydantic model (lines 43-48) after validation:
`text` is required, the other four fields are optional. -/
structure TTSRequest where
  text : String
  voice : Option String
  speed : Option ℚ
  split_pattern : Option String
  sample_rate : Option ℤ
deriving DecidableEq

/-- A raw `/tts` JSON body before pydantic validation: `text` may be
absent. -/
structure RawBody where
  text : Option String
  voice : Option String
  speed : Option ℚ
  split_pattern : Option String
  sample_rate : Option ℤ
deriving DecidableEq

/-- An HTTP response from the `/tts` endpoint: a 200 streaming WAV body
(as bytes), or an error status with a detail message. -/
inductive Response where
  | okWav (bytes : List ℕ)
  | httpError (status : ℕ) (detail : String)
deriving DecidableEq

/-- Little-endian 16-bit encoding of a natural number (mod 2^16). -/
def u16le (n : ℕ) : List ℕ := [n % 256, n / 256 % 256]

/-- Little-endian 32-bit encoding of a natural number (mod 2^32). -/
def u32le (n : ℕ) : List ℕ :=
  [n % 256, n / 256 % 256, n / 65536 % 256, n / 16777216 % 256]

/-- One sample as two's-complement 16-bit little-endian bytes. -/
def sampleLE (s : ℤ) : List ℕ :=
  u16le (s % 65536).toNat

/-- The PCM16 data section: the samples in order, two bytes each. -/
def pcm16Bytes (samples : List ℤ) : List ℕ :=
  (samples.map sampleLE).flatten

/-- Byte values of the ASCII tag strings used in the RIFF header. -/
def tagBytes (s : String) : List ℕ :=
  s.data.map Char.toNat

/-- The complete mono PCM16 WAV container produced by
`sf.write(buf, data, samplerate=sr, format="WAV")`: RIFF header, `fmt `
chunk (PCM, 1 channel, 16 bits) declaring `sr`, and the `data` chunk
holding the samples in order. -/
def wavBytes (samples : List ℤ) (sr : ℕ) : List ℕ :=
  let dataB := pcm16Bytes samples
  tagBytes "RIFF" ++ u32le (36 + dataB.length) ++ tagBytes "WAVE" ++
    tagBytes "fmt " ++ u32le 16 ++ u16le 1 ++ u16le 1 ++ u32le sr ++
    u32le (sr * 2) ++ u16le 2 ++ u16le 16 ++
    tagBytes "data" ++ u32le dataB.length ++ dataB

/-- Model of `sf.write(buf, audio_all, samplerate=sample_rate,
format="WAV")`: libsndfile rejects a non-positive sample rate (the
exception is caught by the handler's `except` block), otherwise the
buffer receives the WAV container. -/
def sf_write (samples : List ℤ) (sr : ℤ) : Except String (List ℕ) :=
  if sr ≤ 0 then Except.error "Error opening output : Format not recognised."
  else Except.ok (wavBytes samples sr.toNat)

/-- Python `x or default` on an optional string: `None` and `""` are
falsy, so both fall back to the default. -/
def pyOrStr (x : Option String) (default : String) : String :=
  match x with
  | none => default
  | some s => if s = "" then default else s

/-- Effective voice (line 124): `req.voice or DEFAULT_VOICE`. -/
def resolveVoice (req : TTSRequest) (cfg : Config) : String :=
  pyOrStr req.voice cfg.defaultVoice

/-- Effective speed (line 125):
`float(req.speed) if req.speed is not None else DEFAULT_SPEED`. -/
def resolveSpeed (req : TTSRequest) (cfg : Config) : ℚ :=
  match req.speed with
  | some s => s
  | none => cfg.defaultSpeed

/-- Effective split pattern (line 126):
`req.split_pattern or SPLIT_PATTERN`. -/
def resolveSplit (req : TTSRequest) (cfg : Config) : String :=
  pyOrStr req.split_pattern cfg.splitPattern

/-- Effective sample rate (line 127):
`int(req.sample_rate) if req.sample_rate is not None else SAMPLE_RATE`. -/
def resolveSampleRate (req : TTSRequest) (cfg : Config) : ℤ :=
  match req.sample_rate with
  | some r => r
  | none => cfg.sampleRate

/-- The `try`/`except` block of the handler (lines 129-145), applied to
the engine's output: collect the chunks, fail with `No audio produced`
when there are none, otherwise concatenate along axis 0 and encode at
`sr`; any exception becomes a 500 with the message attached. -/
def ttsEncode (result : Except String (List Chunk)) (sr : ℤ) : Response :=
  match result with
  | Except.error e => Response.httpError 500 ("TTS generation failed: " ++ e)
  | Except.ok audio_chunks =>
    if audio_chunks.isEmpty then
      Response.httpError 500 "TTS generation failed: No audio produced"
    else
      match sf_write audio_chunks.flatten sr with
      | Except.error e => Response.httpError 500 ("TTS generation failed: " ++ e)
      | Except.ok buf => Response.okWav buf

/-- The `/tts` handler body (`server.py` lines 115-145), parameterised
by the module-level `pipeline` global and the configuration. -/
def tts (pipeline : Option Engine) (cfg : Config) (req : TTSRequest) : Response :=
  match pipeline with
  | none => Response.httpError 503 "Pipeline not ready"
  | some p =>
    let text := pyStrip req.text
    if text = "" then
      Response.httpError 400 "Field 'text' is required and must be non-empty"
    else
      ttsEncode
        (p text (resolveVoice req cfg) (resolveSpeed req cfg) (resolveSplit req cfg))
        (resolveSampleRate req cfg)

/-- The FastAPI/pydantic validation layer in front of the handler: the
`TTSRequest` model declares `text: str` with no default, so a body
without `text` is rejected with a 422 validation response before the
handler runs. -/
def validateBody (b : RawBody) : Except Response TTSRequest :=
  match b.text with
  | none => Except.error (Response.httpError 422 "field required: text")
  | some t =>
    Except.ok
      { text := t, voice := b.voice, speed := b.speed
        split_pattern := b.split_pattern, sample_rate := b.sample_rate }

/-- A full `POST /tts` round trip: pydantic validation, then the handler. -/
def postTts (pipeline : Option Engine) (cfg : Config) (b : RawBody) : Response :=
  match validateBody b with
  | Except.error r => r
  | Except.ok req => tts pipeline cfg req

/-- The JSON body returned by `GET /health` (lines 102-105). -/
structure HealthBody where
  status : String
  model : String
  lang_code : String
  ready : Bool
deriving DecidableEq

/-- The `GET /health` handler (lines 102-105). -/
def health (pipeline : Option Engine) (cfg : Config) : HealthBody :=
  let ok := pipeline.isSome
  { status := if ok then "ok" else "error", model := "kokoro"
    lang_code := cfg.langCode, ready := ok }

/-- The `GET /voices` handler (lines 108-112): returns `DEFAULT_VOICES`. -/
def list_voices (cfg : Config) : List String :=
  cfg.voices

/-- HTTP status code of a response (a 200 streaming response for the
success branch). -/
def responseStatus : Response → ℕ
  | Response.okWav _ => 200
  | Response.httpError s _ => s

/-- Declared sample rate of a WAV byte stream: bytes 24-27, little-endian. -/
def wavDeclaredRate (w : List ℕ) : ℕ :=
  w.getD 24 0 + 256 * w.getD 25 0 + 65536 * w.getD 26 0 + 16777216 * w.getD 27 0

/-- Decode a PCM16 little-endian byte list back into samples. -/
def decodePcm16 : List ℕ → List ℤ
  | b0 :: b1 :: rest =>
    let u := b0 + 256 * b1
    (if u < 32768 then (u : ℤ) else (u : ℤ) - 65536) :: decodePcm16 rest
  | _ => []

/-- The sample sequence stored in a WAV byte stream (the `data` section
starts at byte 44 in the simple single-`data`-chunk layout used here). -/
def wavSamples (w : List ℕ) : List ℤ :=
  decodePcm16 (w.drop 44)

/-- Structural validity of a WAV container: RIFF/WAVE magic, a 16-byte
PCM `fmt ` chunk, and size fields consistent with the actual length. -/
def isValidWav (w : List ℕ) : Bool :=
  decide (44 ≤ w.length) &&
  w.take 4 = tagBytes "RIFF" &&
  (w.drop 4).take 4 = u32le (w.length - 8) &&
  (w.drop 8).take 4 = tagBytes "WAVE" &&
  (w.drop 12).take 4 = tagBytes "fmt " &&
  (w.drop 16).take 4 = u32le 16 &&
  (w.drop 20).take 2 = u16le 1 &&
  (w.drop 36).take 4 = tagBytes "data" &&
  (w.drop 40).take 4 = u32le (w.length - 44)

section Helpers

/-- Totality of the lexicographic comparison. -/
theorem charListLe_total : ∀ a b : List Char, charListLe a b = true ∨ charListLe b a = true
  | [], _ => Or.inl rfl
  | _ :: _, [] => Or.inr rfl
  | a :: as, b :: bs => by
    rcases Nat.lt_trichotomy a.toNat b.toNat with h | h | h
    · left
      simp [charListLe, h]
    · rcases charListLe_total as bs with ih | ih
      · left
        simp [charListLe, h, Nat.lt_irrefl, ih]
      · right
        simp [charListLe, h.symm, Nat.lt_irrefl, ih]
    · right
      simp [charListLe, h, Nat.lt_asymm h]

/-- Transitivity of the lexicographic comparison. -/
theorem charListLe_trans :
    ∀ a b c : List Char,
      charListLe a b = true → charListLe b c = true → charListLe a c = true
  | [], _, _, _, _ => rfl
  | _ :: _, [], _, h1, _ => by simp [charListLe] at h1
  | _ :: _, _ :: _, [], _, h2 => by simp [charListLe] at h2
  | a :: as, b :: bs, c :: cs, h1, h2 => by
    simp only [charListLe] at h1 h2 ⊢
    split_ifs at h1 h2 ⊢ <;>
      first
      | rfl
      | omega
      | exact charListLe_trans as bs cs h1 h2

/-- `strLe` is total, as an instance for Mathlib's sorting lemmas. -/
instance : IsTotal String (fun a b => strLe a b = true) :=
  ⟨fun a b => charListLe_total a.data b.data⟩

/-- `strLe` is transitive, as an instance for Mathlib's sorting lemmas. -/
instance : IsTrans String (fun a b => strLe a b = true) :=
  ⟨fun a b c => charListLe_trans a.data b.data c.data⟩

/-- Decoding inverts the two's-complement 16-bit encoding on samples in
the representable range. -/
theorem decodePcm16_pcm16Bytes :
    ∀ samples : List ℤ, (∀ x ∈ samples, -32768 ≤ x ∧ x < 32768) →
      decodePcm16 (pcm16Bytes samples) = samples
  | [], _ => rfl
  | a :: t, h => by
    have ha := h a (List.mem_cons_self a t)
    have ht : ∀ x ∈ t, -32768 ≤ x ∧ x < 32768 :=
      fun x hx => h x (List.mem_cons_of_mem _ hx)
    have hrest := decodePcm16_pcm16Bytes t ht
    have hstep : decodePcm16 (pcm16Bytes (a :: t)) =
        (if (a % 65536).toNat % 256 + 256 * ((a % 65536).toNat / 256 % 256) < 32768 then
          (((a % 65536).toNat % 256 + 256 * ((a % 65536).toNat / 256 % 256) : ℕ) : ℤ)
        else
          (((a % 65536).toNat % 256 + 256 * ((a % 65536).toNat / 256 % 256) : ℕ) : ℤ) - 65536) ::
          decodePcm16 (pcm16Bytes t) := rfl
    rw [hstep, hrest]
    have harith :
        (if (a % 65536).toNat % 256 + 256 * ((a % 65536).toNat / 256 % 256) < 32768 then
          (((a % 65536).toNat % 256 + 256 * ((a % 65536).toNat / 256 % 256) : ℕ) : ℤ)
        else
          (((a % 65536).toNat % 256 + 256 * ((a % 65536).toNat / 256 % 256) : ℕ) : ℤ) - 65536) = a := by
      split_ifs with hlt <;> omega
    rw [harith]

/-- The payload of the container is exactly the PCM16 data section,
independent of the sample-rate label. -/
theorem wavBytes_drop44 (samples : List ℤ) (sr : ℕ) :
    (wavBytes samples sr).drop 44 = pcm16Bytes samples := rfl

/-- `wavSamples` recovers the concatenated samples from the container. -/
theorem wavSamples_wavBytes (samples : List ℤ) (sr : ℕ)
    (h : ∀ x ∈ samples, -32768 ≤ x ∧ x < 32768) :
    wavSamples (wavBytes samples sr) = samples := by
  rw [wavSamples, wavBytes_drop44]
  exact decodePcm16_pcm16Bytes samples h

set_option maxHeartbeats 2000000 in
/-- The sample-rate field of the container holds the requested label. -/
theorem wavDeclaredRate_wavBytes (samples : List ℤ) (sr : ℕ)
    (h : sr < 4294967296) :
    wavDeclaredRate (wavBytes samples sr) = sr := by
  have hrfl : wavDeclaredRate (wavBytes samples sr) =
      sr % 256 + 256 * (sr / 256 % 256) + 65536 * (sr / 65536 % 256) +
        16777216 * (sr / 16777216 % 256) := rfl
  rw [hrfl]
  omega

/-- Total length of the container: 44 header bytes plus the data. -/
theorem wavBytes_length (samples : List ℤ) (sr : ℕ) :
    (wavBytes samples sr).length = 44 + (pcm16Bytes samples).length := by
  simp [wavBytes, tagBytes, u32le, u16le]
  omega

set_option maxHeartbeats 2000000 in
/-- The emitted container passes the structural WAV validity check. -/
theorem isValidWav_wavBytes (samples : List ℤ) (sr : ℕ) :
    isValidWav (wavBytes samples sr) = true := by
  have hlen := wavBytes_length samples sr
  have h1 : (wavBytes samples sr).take 4 = tagBytes "RIFF" := rfl
  have h2 : ((wavBytes samples sr).drop 4).take 4 =
      u32le (36 + (pcm16Bytes samples).length) := rfl
  have h3 : ((wavBytes samples sr).drop 8).take 4 = tagBytes "WAVE" := rfl
  have h4 : ((wavBytes samples sr).drop 12).take 4 = tagBytes "fmt " := rfl
  have h5 : ((wavBytes samples sr).drop 16).take 4 = u32le 16 := rfl
  have h6 : ((wavBytes samples sr).drop 20).take 2 = u16le 1 := rfl
  have h7 : ((wavBytes samples sr).drop 36).take 4 = tagBytes "data" := rfl
  have h8 : ((wavBytes samples sr).drop 40).take 4 =
      u32le (pcm16Bytes samples).length := rfl
  rw [isValidWav, hlen, h1, h2, h3, h4, h5, h6, h7, h8]
  have e1 : 44 + (pcm16Bytes samples).length - 8 =
      36 + (pcm16Bytes samples).length := by omega
  have e2 : 44 + (pcm16Bytes samples).length - 44 =
      (pcm16Bytes samples).length := by omega
  rw [e1, e2]
  simp

end Helpers

section ClaimWitnessFixtures

/-- A concrete configuration matching all the documented defaults. -/
def cfgW : Config :=
  { langCode := "a", defaultVoice := "af_heart", defaultSpeed := 1,
    splitPattern := "\\n+", sampleRate := 24000, voices := ["af_heart"] }

/-- A stub engine yielding three distinguishable chunks in order. -/
def engChunks : Engine :=
  fun _ _ _ _ => Except.ok [[0, 0], [1, 1, 1], [2]]

/-- A stub engine yielding zero chunks for any input. -/
def engEmpty : Engine :=
  fun _ _ _ _ => Except.ok []

/-- A stub engine that succeeds exactly when it receives a non-positive
speed, so a successful response proves the speed reached the engine. -/
def engSpeedProbe : Engine :=
  fun _ _ s _ => if s ≤ 0 then Except.ok [[1]] else Except.error "speed was positive"

/-- A stub engine that reports the voice it was called with inside the
error message, so the response reveals the argument it received. -/
def engVoiceProbe : Engine :=
  fun _ v _ _ => Except.error v

/-- A stub engine that must never be reached. -/
def engNever : Engine :=
  fun _ _ _ _ => Except.error "engine should not be reached"

end ClaimWitnessFixtures

section Claims

/-- C1: for every successful `POST /tts` call, the encoded audio buffer
is exactly the in-order concatenation of the chunks the engine yielded:
the response body is the WAV encoding of `chunks.flatten`, and decoding
its sample section gives back `chunks.flatten` — no reordering,
deduplication, resampling or amplitude change. -/
theorem C1_tts_concatenates_chunks_in_order
    (p : Engine) (cfg : Config) (req : TTSRequest) (chunks : List Chunk)
    (htext : pyStrip req.text ≠ "")
    (hengine : p (pyStrip req.text) (resolveVoice req cfg) (resolveSpeed req cfg)
      (resolveSplit req cfg) = Except.ok chunks)
    (hne : chunks ≠ [])
    (hrate : 0 < resolveSampleRate req cfg)
    (hrange : ∀ x ∈ chunks.flatten, -32768 ≤ x ∧ x < 32768) :
    tts (some p) cfg req =
      Response.okWav (wavBytes chunks.flatten (resolveSampleRate req cfg).toNat) ∧
    wavSamples (wavBytes chunks.flatten (resolveSampleRate req cfg).toNat) =
      chunks.flatten := by
  have hle : ¬ resolveSampleRate req cfg ≤ 0 := not_le.mpr hrate
  constructor
  · simp [tts, htext, ttsEncode, hengine, List.isEmpty_iff, hne, sf_write, hle]
  · exact wavSamples_wavBytes _ _ hrange

/-- Witness for C1 at a concrete input: three constant-value chunks come
back as one WAV whose samples are their concatenation. -/
theorem C1_tts_concatenates_chunks_in_order_witness :
    tts (some engChunks) cfgW ⟨"hello", none, none, none, none⟩ =
      Response.okWav (wavBytes [0, 0, 1, 1, 1, 2] 24000) ∧
    wavSamples (wavBytes [0, 0, 1, 1, 1, 2] 24000) = [0, 0, 1, 1, 1, 2] :=
  C1_tts_concatenates_chunks_in_order engChunks cfgW
    ⟨"hello", none, none, none, none⟩ [[0, 0], [1, 1, 1], [2]]
    (by decide) (by decide) (by decide) (by decide) (by decide)

/-- C2: when the engine yields zero chunks for non-empty text, `/tts`
answers with the 500 `No audio produced` failure, never a 200 with an
empty WAV body. -/
theorem C2_empty_output_is_server_error
    (p : Engine) (cfg : Config) (req : TTSRequest)
    (htext : pyStrip req.text ≠ "")
    (hengine : p (pyStrip req.text) (resolveVoice req cfg) (resolveSpeed req cfg)
      (resolveSplit req cfg) = Except.ok []) :
    tts (some p) cfg req =
      Response.httpError 500 "TTS generation failed: No audio produced" ∧
    responseStatus (tts (some p) cfg req) = 500 := by
  have h : tts (some p) cfg req =
      Response.httpError 500 "TTS generation failed: No audio produced" := by
    simp [tts, htext, ttsEncode, hengine]
  exact ⟨h, by rw [h]; rfl⟩

/-- Witness for C2 at a concrete input. -/
theorem C2_empty_output_is_server_error_witness :
    tts (some engEmpty) cfgW ⟨"hello", none, none, none, none⟩ =
      Response.httpError 500 "TTS generation failed: No audio produced" ∧
    responseStatus (tts (some engEmpty) cfgW ⟨"hello", none, none, none, none⟩) = 500 :=
  C2_empty_output_is_server_error engEmpty cfgW
    ⟨"hello", none, none, none, none⟩ (by decide) (by decide)

/-- C6: with the pipeline handle uninitialized, `/health` returns its
fixed body with `ready = false` (it cannot fail), and every validated
`/tts` request is answered 503 before any engine could be consulted. -/
theorem C6_not_ready_health_false_and_tts_503
    (cfg : Config) (req : TTSRequest) :
    health none cfg =
      { status := "error", model := "kokoro", lang_code := cfg.langCode, ready := false } ∧
    (health none cfg).ready = false ∧
    tts none cfg req = Response.httpError 503 "Pipeline not ready" :=
  ⟨rfl, rfl, rfl⟩

/-- C9: a malformed numeric environment value (default speed or sample
rate) makes module import fail: `loadConfig` returns an error, so no
configuration — and hence no serving handler — ever comes into
existence; the failure cannot surface as a per-request error. -/
theorem C9_malformed_numeric_env_fails_startup (env : Env)
    (h : pyFloat (env.defaultSpeed.getD "1.0") = none ∨
      pyInt (env.sampleRate.getD "24000") = none) :
    (∃ msg, loadConfig env = Except.error msg) ∧
    ∀ cfg, loadConfig env ≠ Except.ok cfg := by
  have herr : ∃ msg, loadConfig env = Except.error msg := by
    rcases h with h | h
    · exact ⟨_, by rw [loadConfig, h]⟩
    · cases hf : pyFloat (env.defaultSpeed.getD "1.0") with
      | none => exact ⟨_, by rw [loadConfig, hf]⟩
      | some q => exact ⟨_, by rw [loadConfig, hf, h]⟩
  obtain ⟨msg, hmsg⟩ := herr
  exact ⟨⟨msg, hmsg⟩, fun cfg hok => by rw [hmsg] at hok; cases hok⟩

/-- Witness for C9: `DEFAULT_SPEED=fast` aborts configuration loading. -/
theorem C9_malformed_numeric_env_fails_startup_witness :
    ((∃ msg, loadConfig ⟨none, none, some "fast", none, none, none⟩ = Except.error msg) ∧
      ∀ cfg, loadConfig ⟨none, none, some "fast", none, none, none⟩ ≠ Except.ok cfg) :=
  C9_malformed_numeric_env_fails_startup ⟨none, none, some "fast", none, none, none⟩
    (Or.inl (by decide))

/-- Counterexample to C3: a request carrying `speed = -1` is not
rejected — the handler passes it to the engine (which here succeeds
exactly when it receives a non-positive speed) and returns 200. -/
theorem C3_nonpositive_speed_not_rejected_cex :
    tts (some engSpeedProbe) cfgW ⟨"hello", none, some (-1), none, none⟩ =
      Response.okWav (wavBytes [1] 24000) ∧
    responseStatus (tts (some engSpeedProbe) cfgW ⟨"hello", none, some (-1), none, none⟩) = 200 := by
  constructor <;> decide

/-- C3 as amended: the handler performs no validation on `speed`; any
supplied value, zero or negative included, becomes the effective speed
and is handed to the engine unchanged. -/
theorem C3_amended_speed_passed_through_unvalidated
    (p : Engine) (cfg : Config) (req : TTSRequest) (s : ℚ)
    (hs : req.speed = some s) (htext : pyStrip req.text ≠ "") :
    resolveSpeed req cfg = s ∧
    tts (some p) cfg req =
      ttsEncode (p (pyStrip req.text) (resolveVoice req cfg) s (resolveSplit req cfg))
        (resolveSampleRate req cfg) := by
  have h1 : resolveSpeed req cfg = s := by
    simp [resolveSpeed, hs]
  refine ⟨h1, ?_⟩
  simp [tts, htext, h1]

/-- Witness for the amended C3 at `speed = 0`. -/
theorem C3_amended_speed_passed_through_unvalidated_witness :
    resolveSpeed ⟨"hello", none, some 0, none, none⟩ cfgW = 0 ∧
    tts (some engSpeedProbe) cfgW ⟨"hello", none, some 0, none, none⟩ =
      ttsEncode
        (engSpeedProbe (pyStrip "hello")
          (resolveVoice ⟨"hello", none, some 0, none, none⟩ cfgW) 0
          (resolveSplit ⟨"hello", none, some 0, none, none⟩ cfgW))
        (resolveSampleRate ⟨"hello", none, some 0, none, none⟩ cfgW) :=
  C3_amended_speed_passed_through_unvalidated engSpeedProbe cfgW
    ⟨"hello", none, some 0, none, none⟩ 0 (by decide) (by decide)

/-- Counterexample to C4: with `DEFAULT_VOICE=bf_alpha` and no extra
voices, the voice set is still `["af_heart"]` — the configured default
voice is not merged into it, refuting the claim for this configuration. -/
theorem C4_default_voice_not_merged_cex :
    loadConfig ⟨none, some "bf_alpha", none, none, none, none⟩ =
      Except.ok
        { langCode := "a", defaultVoice := "bf_alpha", defaultSpeed := 1,
          splitPattern := "\\n+", sampleRate := 24000, voices := ["af_heart"] } ∧
    "bf_alpha" ∉ (["af_heart"] : List String) := by
  constructor <;> decide

/-- C4 as amended: the voice set served by `GET /voices` is the ordered
(lexicographically sorted), duplicate-free merge of the literal voice
`"af_heart"` and the configured extra voices; the `DEFAULT_VOICE`
setting itself is not merged in. -/
theorem C4_amended_voices_sorted_dedup_merge (env : Env) (cfg : Config)
    (h : loadConfig env = Except.ok cfg) :
    list_voices cfg = cfg.voices ∧
    List.Sorted (fun a b => strLe a b = true) cfg.voices ∧
    cfg.voices.Nodup ∧
    ∀ v, v ∈ cfg.voices ↔
      v = "af_heart" ∨ v ∈ voicesExtraList (env.voicesExtra.getD "") := by
  have hv : cfg.voices =
      List.insertionSort (fun a b => strLe a b = true)
        (("af_heart" :: voicesExtraList (env.voicesExtra.getD "")).dedup) := by
    cases hf : pyFloat (env.defaultSpeed.getD "1.0") with
    | none => rw [loadConfig, hf] at h; cases h
    | some q =>
      cases hi : pyInt (env.sampleRate.getD "24000") with
      | none => rw [loadConfig, hf, hi] at h; cases h
      | some n =>
        rw [loadConfig, hf, hi] at h
        cases h
        rfl
  refine ⟨rfl, ?_, ?_, ?_⟩
  · rw [hv]
    exact List.sorted_insertionSort _ _
  · rw [hv]
    exact (List.perm_insertionSort _ _).nodup_iff.mpr (List.nodup_dedup _)
  · intro v
    rw [hv, List.mem_insertionSort, List.mem_dedup, List.mem_cons]

/-- Witness for the amended C4 on a configuration with messy extras. -/
theorem C4_amended_voices_sorted_dedup_merge_witness :
    list_voices
        { langCode := "a", defaultVoice := "af_heart", defaultSpeed := 1,
          splitPattern := "\\n+", sampleRate := 24000,
          voices := ["af_a", "af_heart", "bf_x"] } =
      ["af_a", "af_heart", "bf_x"] ∧
    List.Sorted (fun a b => strLe a b = true) ["af_a", "af_heart", "bf_x"] ∧
    (["af_a", "af_heart", "bf_x"] : List String).Nodup ∧
    ∀ v, v ∈ (["af_a", "af_heart", "bf_x"] : List String) ↔
      v = "af_heart" ∨
        v ∈ voicesExtraList
          ((⟨none, none, none, none, none, some "bf_x, af_a,,af_heart "⟩ : Env).voicesExtra.getD "") :=
  C4_amended_voices_sorted_dedup_merge
    ⟨none, none, none, none, none, some "bf_x, af_a,,af_heart "⟩
    { langCode := "a", defaultVoice := "af_heart", defaultSpeed := 1,
      splitPattern := "\\n+", sampleRate := 24000,
      voices := ["af_a", "af_heart", "bf_x"] }
    (by decide)

/-- Counterexample to C5: a body with the `text` field missing is
rejected by the pydantic validation layer with status 422, not 400. -/
theorem C5_missing_text_responds_422_cex :
    postTts (some engNever) cfgW ⟨none, none, none, none, none⟩ =
      Response.httpError 422 "field required: text" ∧
    responseStatus (postTts (some engNever) cfgW ⟨none, none, none, none, none⟩) ≠ 400 := by
  constructor <;> decide

/-- C5 as amended: a missing `text` gives a 422 validation error and an
empty or whitespace-only `text` gives a 400; in every such case the
response is independent of the engine, i.e. the adapter is never
invoked. -/
theorem C5_amended_blank_text_client_error_engine_unreached
    (cfg : Config) (b : RawBody)
    (h : ∀ t, b.text = some t → pyStrip t = "") :
    (∀ p : Engine, postTts (some p) cfg b =
      match b.text with
      | none => Response.httpError 422 "field required: text"
      | some _ => Response.httpError 400 "Field 'text' is required and must be non-empty") ∧
    ∀ p q : Engine, postTts (some p) cfg b = postTts (some q) cfg b := by
  have hmain : ∀ p : Engine, postTts (some p) cfg b =
      match b.text with
      | none => Response.httpError 422 "field required: text"
      | some _ => Response.httpError 400 "Field 'text' is required and must be non-empty" := by
    intro p
    cases ht : b.text with
    | none => simp [postTts, validateBody, ht]
    | some t =>
      have hblank : pyStrip t = "" := h t ht
      simp [postTts, validateBody, ht, tts, hblank]
  exact ⟨hmain, fun p q => by rw [hmain p, hmain q]⟩

/-- Witness for the amended C5 on a whitespace-only body. -/
theorem C5_amended_blank_text_client_error_engine_unreached_witness :
    postTts (some engNever) cfgW ⟨some "  ", none, none, none, none⟩ =
      Response.httpError 400 "Field 'text' is required and must be non-empty" :=
  (C5_amended_blank_text_client_error_engine_unreached cfgW
      ⟨some "  ", none, none, none, none⟩
      (fun t ht => by cases Option.some.inj ht; decide)).1 engNever

/-- Counterexample to C7: `voice` supplied as the empty string is a
present field, yet the engine receives the configured default
`"af_heart"`, not the request-supplied value — the probe engine echoes
the voice it was called with in its error message. -/
theorem C7_empty_voice_not_passed_as_given_cex :
    (⟨"hello", some "", none, none, none⟩ : TTSRequest).voice = some "" ∧
    tts (some engVoiceProbe) cfgW ⟨"hello", some "", none, none, none⟩ =
      Response.httpError 500 "TTS generation failed: af_heart" ∧
    "af_heart" ≠ "" := by
  refine ⟨rfl, ?_, by decide⟩
  decide

/-- C7 as amended: each of the four optional fields independently falls
back to its configured default when absent; when present, `speed` and
`sample_rate` are used exactly as given, while `voice` and
`split_pattern` are used as given only when non-empty (an empty string
also falls back to the default); the engine is called with the resolved
values and the resolved sample rate labels the encoding. -/
theorem C7_amended_fields_fall_back_to_defaults
    (p : Engine) (cfg : Config) (req : TTSRequest) :
    (req.voice = none → resolveVoice req cfg = cfg.defaultVoice) ∧
    (req.speed = none → resolveSpeed req cfg = cfg.defaultSpeed) ∧
    (req.split_pattern = none → resolveSplit req cfg = cfg.splitPattern) ∧
    (req.sample_rate = none → resolveSampleRate req cfg = cfg.sampleRate) ∧
    (∀ s, req.speed = some s → resolveSpeed req cfg = s) ∧
    (∀ n, req.sample_rate = some n → resolveSampleRate req cfg = n) ∧
    (∀ v, req.voice = some v → v ≠ "" → resolveVoice req cfg = v) ∧
    (∀ sp, req.split_pattern = some sp → sp ≠ "" → resolveSplit req cfg = sp) ∧
    (pyStrip req.text ≠ "" →
      tts (some p) cfg req =
        ttsEncode
          (p (pyStrip req.text) (resolveVoice req cfg) (resolveSpeed req cfg)
            (resolveSplit req cfg))
          (resolveSampleRate req cfg)) := by
  refine ⟨?_, ?_, ?_, ?_, ?_, ?_, ?_, ?_, ?_⟩
  · intro h; simp [resolveVoice, pyOrStr, h]
  · intro h; simp [resolveSpeed, h]
  · intro h; simp [resolveSplit, pyOrStr, h]
  · intro h; simp [resolveSampleRate, h]
  · intro s h; simp [resolveSpeed, h]
  · intro n h; simp [resolveSampleRate, h]
  · intro v h hv; simp [resolveVoice, pyOrStr, h, hv]
  · intro sp h hsp; simp [resolveSplit, pyOrStr, h, hsp]
  · intro htext; simp [tts, htext]

/-- Witness for the amended C7: with every optional field omitted, the
resolved values equal the configured defaults. -/
theorem C7_amended_fields_fall_back_to_defaults_witness :
    resolveVoice ⟨"hello", none, none, none, none⟩ cfgW = cfgW.defaultVoice ∧
    resolveSpeed ⟨"hello", none, none, none, none⟩ cfgW = cfgW.defaultSpeed ∧
    resolveSplit ⟨"hello", none, none, none, none⟩ cfgW = cfgW.splitPattern ∧
    resolveSampleRate ⟨"hello", none, none, none, none⟩ cfgW = cfgW.sampleRate ∧
    tts (some engChunks) cfgW ⟨"hello", none, none, none, none⟩ =
      ttsEncode
        (engChunks (pyStrip "hello")
          (resolveVoice ⟨"hello", none, none, none, none⟩ cfgW)
          (resolveSpeed ⟨"hello", none, none, none, none⟩ cfgW)
          (resolveSplit ⟨"hello", none, none, none, none⟩ cfgW))
        (resolveSampleRate ⟨"hello", none, none, none, none⟩ cfgW) :=
  ⟨(C7_amended_fields_fall_back_to_defaults engChunks cfgW
      ⟨"hello", none, none, none, none⟩).1 rfl,
    (C7_amended_fields_fall_back_to_defaults engChunks cfgW
      ⟨"hello", none, none, none, none⟩).2.1 rfl,
    (C7_amended_fields_fall_back_to_defaults engChunks cfgW
      ⟨"hello", none, none, none, none⟩).2.2.1 rfl,
    (C7_amended_fields_fall_back_to_defaults engChunks cfgW
      ⟨"hello", none, none, none, none⟩).2.2.2.1 rfl,
    (C7_amended_fields_fall_back_to_defaults engChunks cfgW
      ⟨"hello", none, none, none, none⟩).2.2.2.2.2.2.2.2 (by decide)⟩

/-- C8: a successful `/tts` response is a structurally valid WAV
container, its declared sample-rate field equals the effective
(request-or-default) sample rate, and its data section is the PCM
encoding of the concatenated raw samples for any rate label — the rate
is a label, not a resampling step. -/
theorem C8_success_is_valid_wav_with_label_rate
    (p : Engine) (cfg : Config) (req : TTSRequest) (chunks : List Chunk)
    (htext : pyStrip req.text ≠ "")
    (hengine : p (pyStrip req.text) (resolveVoice req cfg) (resolveSpeed req cfg)
      (resolveSplit req cfg) = Except.ok chunks)
    (hne : chunks ≠ [])
    (hrate : 0 < resolveSampleRate req cfg)
    (hbound : resolveSampleRate req cfg < 4294967296) :
    tts (some p) cfg req =
      Response.okWav (wavBytes chunks.flatten (resolveSampleRate req cfg).toNat) ∧
    isValidWav (wavBytes chunks.flatten (resolveSampleRate req cfg).toNat) = true ∧
    (wavDeclaredRate (wavBytes chunks.flatten (resolveSampleRate req cfg).toNat) : ℤ) =
      resolveSampleRate req cfg ∧
    ∀ r : ℕ, (wavBytes chunks.flatten r).drop 44 = pcm16Bytes chunks.flatten := by
  have hle : ¬ resolveSampleRate req cfg ≤ 0 := not_le.mpr hrate
  refine ⟨?_, isValidWav_wavBytes _ _, ?_, fun r => wavBytes_drop44 _ r⟩
  · simp [tts, htext, ttsEncode, hengine, List.isEmpty_iff, hne, sf_write, hle]
  · have hb : (resolveSampleRate req cfg).toNat < 4294967296 := by omega
    rw [wavDeclaredRate_wavBytes _ _ hb]
    omega

/-- Witness for C8: a concrete success carries rate 8000 from the
request into the container's rate field. -/
theorem C8_success_is_valid_wav_with_label_rate_witness :
    tts (some engChunks) cfgW ⟨"hello", none, none, none, some 8000⟩ =
      Response.okWav (wavBytes [0, 0, 1, 1, 1, 2] 8000) ∧
    isValidWav (wavBytes [0, 0, 1, 1, 1, 2] 8000) = true ∧
    (wavDeclaredRate (wavBytes [0, 0, 1, 1, 1, 2] 8000) : ℤ) = 8000 ∧
    ∀ r : ℕ, (wavBytes [0, 0, 1, 1, 1, 2] r).drop 44 = pcm16Bytes [0, 0, 1, 1, 1, 2] :=
  C8_success_is_valid_wav_with_label_rate engChunks cfgW
    ⟨"hello", none, none, none, some 8000⟩ [[0, 0], [1, 1, 1], [2]]
    (by decide) (by decide) (by decide) (by decide) (by decide)

/-- C10: the fallback rule is asymmetric — `voice` and `split_pattern`
supplied as the empty string fall back to the configured defaults just
like omitted fields, whereas `speed` and `sample_rate` fall back only
when absent, so explicit `speed = 0` and `sample_rate = 0` are kept as
given rather than replaced by the defaults. -/
theorem C10_fallback_asymmetry (req : TTSRequest) (cfg : Config) :
    (req.voice = some "" → resolveVoice req cfg = cfg.defaultVoice) ∧
    (req.split_pattern = some "" → resolveSplit req cfg = cfg.splitPattern) ∧
    (req.speed = some 0 → resolveSpeed req cfg = 0) ∧
    (req.sample_rate = some 0 → resolveSampleRate req cfg = 0) ∧
    (∀ s, req.speed = some s → resolveSpeed req cfg = s) ∧
    (∀ n, req.sample_rate = some n → resolveSampleRate req cfg = n) := by
  refine ⟨?_, ?_, ?_, ?_, ?_, ?_⟩
  · intro h; simp [resolveVoice, pyOrStr, h]
  · intro h; simp [resolveSplit, pyOrStr, h]
  · intro h; simp [resolveSpeed, h]
  · intro h; simp [resolveSampleRate, h]
  · intro s h; simp [resolveSpeed, h]
  · intro n h; simp [resolveSampleRate, h]

/-- Witness for C10: empty-string voice and split pattern fall back to
the defaults while explicit zero speed and zero sample rate are kept. -/
theorem C10_fallback_asymmetry_witness :
    resolveVoice ⟨"hello", some "", some 0, some "", some 0⟩ cfgW = cfgW.defaultVoice ∧
    resolveSplit ⟨"hello", some "", some 0, some "", some 0⟩ cfgW = cfgW.splitPattern ∧
    resolveSpeed ⟨"hello", some "", some 0, some "", some 0⟩ cfgW = 0 ∧
    resolveSampleRate ⟨"hello", some "", some 0, some "", some 0⟩ cfgW = 0 :=
  ⟨(C10_fallback_asymmetry ⟨"hello", some "", some 0, some "", some 0⟩ cfgW).1 rfl,
    (C10_fallback_asymmetry ⟨"hello", some "", some 0, some "", some 0⟩ cfgW).2.1 rfl,
    (C10_fallback_asymmetry ⟨"hello", some "", some 0, some "", some 0⟩ cfgW).2.2.1 rfl,
    (C10_fallback_asymmetry ⟨"hello", some "", some 0, some "", some 0⟩ cfgW).2.2.2.1 rfl⟩

end Claims

end KokoroServer
